import Mathlib

/-!
# Flux rate limiter — verification of the spec'd core against the code

Shallow embedding of the `flux` Python package (CLI, decorator) together
with spec-modelled definitions for the parts of the core (limiter façade,
key hashing, GCRA script) whose source module is not part of the tree.
-/

namespace Flux

/-! ## SHA-256 over `Nat` (each word reduced mod 2^32)

Modelled from the spec: the limiter module (`flux/limiter.py`) that hashes
fingerprints is not in the tree; the spec says the store key is the SHA-256
hex digest of the UTF-8 encoded fingerprint, prefixed.  This is a complete
FIPS-180-4 SHA-256 over `Nat`, words reduced mod 2^32. -/

/-- Reduce a word modulo 2^32. -/
def w32 (x : Nat) : Nat := x % 4294967296

/-- Right rotation of a 32-bit word (input assumed < 2^32). -/
def rotr (n x : Nat) : Nat := w32 ((x >>> n) + ((x % 2 ^ n) <<< (32 - n)))

/-- σ0 message-schedule function. -/
def ssig0 (x : Nat) : Nat := (rotr 7 x) ^^^ (rotr 18 x) ^^^ (x >>> 3)

/-- σ1 message-schedule function. -/
def ssig1 (x : Nat) : Nat := (rotr 17 x) ^^^ (rotr 19 x) ^^^ (x >>> 10)

/-- Σ0 compression function. -/
def bsig0 (x : Nat) : Nat := (rotr 2 x) ^^^ (rotr 13 x) ^^^ (rotr 22 x)

/-- Σ1 compression function. -/
def bsig1 (x : Nat) : Nat := (rotr 6 x) ^^^ (rotr 11 x) ^^^ (rotr 25 x)

/-- Ch(e,f,g). -/
def chf (e f g : Nat) : Nat := (e &&& f) ^^^ ((4294967295 - e) &&& g)

/-- Maj(a,b,c). -/
def majf (a b c : Nat) : Nat := (a &&& b) ^^^ (a &&& c) ^^^ (b &&& c)

/-- The 64 SHA-256 round constants (decimal). -/
def sha256K : List Nat :=
  [1116352408, 1899447441, 3049323471, 3921009573, 961987163,
   1508970993, 2453635748, 2870763221, 3624381080, 310598401,
   607225278, 1426881987, 1925078388, 2162078206, 2614888103,
   3248222580, 3835390401, 4022224774, 264347078, 604807628,
   770255983, 1249150122, 1555081692, 1996064986, 2554220882,
   2821834349, 2952996808, 3210313671, 3336571891, 3584528711,
   113926993, 338241895, 666307205, 773529912, 1294757372,
   1396182291, 1695183700, 1986661051, 2177026350, 2456956037,
   2730485921, 2820302411, 3259730800, 3345764771, 3516065817,
   3600352804, 4094571909, 275423344, 430227734, 506948616,
   659060556, 883997877, 958139571, 1322822218, 1537002063,
   1747873779, 1955562222, 2024104815, 2227730452, 2361852424,
   2428436474, 2756734187, 3204031479, 3329325298]

/-- SHA-256 working state: eight 32-bit words. -/
structure Sha256St where
  a : Nat
  b : Nat
  c : Nat
  d : Nat
  e : Nat
  f : Nat
  g : Nat
  hh : Nat
  deriving DecidableEq, Repr

/-- Initial hash value (decimal). -/
def sha256H0 : Sha256St :=
  ⟨1779033703, 3144134277, 1013904242, 2773480762,
   1359893119, 2600822924, 528734635, 1541459225⟩

/-- One compression round with round constant `k` and schedule word `w`. -/
def sha256Round (s : Sha256St) (k w : Nat) : Sha256St :=
  let t1 := w32 (s.hh + bsig1 s.e + chf s.e s.f s.g + k + w)
  let t2 := w32 (bsig0 s.a + majf s.a s.b s.c)
  ⟨w32 (t1 + t2), s.a, s.b, s.c, w32 (s.d + t1), s.e, s.f, s.g⟩

/-- Extend the reversed message-schedule list by `n` further words.
The accumulator holds the words computed so far, most recent first. -/
def extendSched : Nat → List Nat → List Nat
  | 0, acc => acc.reverse
  | n + 1, acc =>
      let w := w32 (ssig1 (acc.getD 1 0) + acc.getD 6 0 + ssig0 (acc.getD 14 0)
                    + acc.getD 15 0)
      extendSched n (w :: acc)

/-- The 64-word message schedule from a 16-word block. -/
def sha256Schedule (block : List Nat) : List Nat :=
  extendSched 48 block.reverse

/-- Compress one 16-word block into the running hash state. -/
def sha256Block (s0 : Sha256St) (block : List Nat) : Sha256St :=
  let ws := sha256Schedule block
  let s := (sha256K.zip ws).foldl (fun s kw => sha256Round s kw.1 kw.2) s0
  ⟨w32 (s0.a + s.a), w32 (s0.b + s.b), w32 (s0.c + s.c), w32 (s0.d + s.d),
   w32 (s0.e + s.e), w32 (s0.f + s.f), w32 (s0.g + s.g), w32 (s0.hh + s.hh)⟩

/-- Fold the compression over the word stream, 16 words per block. -/
def sha256Fold (s : Sha256St) : List Nat → Sha256St
  | w0 :: w1 :: w2 :: w3 :: w4 :: w5 :: w6 :: w7 ::
    w8 :: w9 :: w10 :: w11 :: w12 :: w13 :: w14 :: w15 :: rest =>
      sha256Fold (sha256Block s [w0, w1, w2, w3, w4, w5, w6, w7,
                                 w8, w9, w10, w11, w12, w13, w14, w15]) rest
  | _ => s

/-- Big-endian byte decomposition of `n` into `k` bytes. -/
def beBytes (k n : Nat) : List Nat :=
  (List.range k).map fun i => (n >>> (8 * (k - 1 - i))) % 256

/-- Pack bytes into big-endian 32-bit words, four bytes per word. -/
def bytesToWords : List Nat → List Nat
  | b0 :: b1 :: b2 :: b3 :: rest =>
      (((b0 * 256 + b1) * 256 + b2) * 256 + b3) :: bytesToWords rest
  | _ => []

/-- SHA-256 padding: append 0x80, zeros to 56 mod 64, then the 64-bit
big-endian bit length. -/
def sha256Pad (msg : List Nat) : List Nat :=
  let len := msg.length
  let zeros := (119 - len % 64) % 64
  msg ++ 128 :: List.replicate zeros 0 ++ beBytes 8 (8 * len)

/-- SHA-256 digest of a byte list, as 32 bytes. -/
def sha256Bytes (msg : List Nat) : List Nat :=
  let st := sha256Fold sha256H0 (bytesToWords (sha256Pad msg))
  (beBytes 4 st.a ++ beBytes 4 st.b ++ beBytes 4 st.c ++ beBytes 4 st.d ++
   beBytes 4 st.e ++ beBytes 4 st.f ++ beBytes 4 st.g ++ beBytes 4 st.hh)

/-- The lowercase hexadecimal alphabet. -/
def hexAlphabet : List Char := "0123456789abcdef".data

/-- A nibble as a lowercase hexadecimal character. -/
def hexChar (n : Nat) : Char := hexAlphabet.getD (n % 16) '0'

/-- A byte as two lowercase hexadecimal characters. -/
def byteToHex (b : Nat) : List Char := [hexChar (b / 16), hexChar b]

/-- UTF-8 encoding of one character (Python `str.encode()`). -/
def utf8EncodeChar (c : Char) : List Nat :=
  let n := c.toNat
  if n < 128 then [n]
  else if n < 2048 then [192 + n / 64, 128 + n % 64]
  else if n < 65536 then [224 + n / 4096, 128 + n / 64 % 64, 128 + n % 64]
  else [240 + n / 262144, 128 + n / 4096 % 64, 128 + n / 64 % 64, 128 + n % 64]

/-- UTF-8 bytes of a string. -/
def utf8Bytes (s : String) : List Nat := (s.data.map utf8EncodeChar).flatten

/-- Lowercase SHA-256 hex digest of a string, as Python
`hashlib.sha256(s.encode()).hexdigest()`. -/
def sha256Hex (s : String) : String :=
  String.mk (((sha256Bytes (utf8Bytes s)).map byteToHex).flatten)

/-! ## Limiter façade (spec-modelled)

Modelled from the spec: `flux/limiter.py`, `flux/config.py` and
`flux/exceptions.py` are imported by the package but are not in the tree;
the configuration model, result parsing with jitter, the fail-silently
error path of `hit`, and the hashed store key are taken from the spec's
words (§3, §4.4, §7).  Randomness is made explicit: the uniform jitter
sample is a parameter of the model. -/

/-- Modelled from the spec: the `[flux]` settings bundle consumed by the
limiter (`FluxConfig` in the missing `flux/config.py`); jitter is off by
default. -/
structure FluxConfig where
  failSilently : Bool := false
  jitterEnabled : Bool := false
  jitterMaxMs : Nat := 0
  deriving DecidableEq, Repr

/-- The decision returned to callers by the limiter façade. -/
structure RateLimitResult where
  allowed : Bool
  remaining : ℤ
  retryAfter : ℚ
  deriving DecidableEq, Repr

/-- A transport-level failure from the store client. -/
inductive StoreError where
  | connectionFailed (msg : String)
  | ioError (msg : String)
  deriving DecidableEq, Repr

/-- An error surfaced by the limiter; store failures are always wrapped. -/
inductive FluxError where
  | connectionError (cause : StoreError)
  deriving DecidableEq, Repr

/-- Modelled from the spec: the façade's result parsing (`_parse_result`):
when `jitter_enabled` and the raw `retry_after` is positive, add the
uniformly sampled value `jitterSample ∈ [0, jitter_max_ms / 1000]`
(the sample is an explicit argument here); otherwise the raw value is
returned unchanged.  The script's status 0 means allowed. -/
def parseResult (cfg : FluxConfig) (jitterSample : ℚ)
    (status : Nat) (retryAfter : ℚ) (remaining : ℤ) : RateLimitResult :=
  let retry := if cfg.jitterEnabled ∧ 0 < retryAfter then retryAfter + jitterSample
               else retryAfter
  ⟨status == 0, remaining, retry⟩

/-- Modelled from the spec: the error path of `RateLimiter.hit`.  The store
reply is either a parsed `(status, retry_after, remaining)` tuple or a
store/connection error; on error, `fail_silently` yields an allowed result
with `remaining = requests` and `retry_after = 0`, otherwise the error is
wrapped in a `ConnectionError` and raised. -/
def hit (cfg : FluxConfig) (requests : Nat) (jitterSample : ℚ)
    (reply : Except StoreError (Nat × ℚ × ℤ)) : Except FluxError RateLimitResult :=
  match reply with
  | .ok (st, ra, rem) => .ok (parseResult cfg jitterSample st ra rem)
  | .error e =>
      if cfg.failSilently then .ok ⟨true, (requests : ℤ), 0⟩
      else .error (.connectionError e)

/-- Modelled from the spec: the store key for a fingerprint is the
configured prefix concatenated with the SHA-256 hex digest of the
fingerprint. -/
def hashedKey (pre fp : String) : String := pre ++ sha256Hex fp

/-! ## GCRA policy script (spec-modelled)

Modelled from the spec (§4.3.1): the Lua policy scripts are not in the
tree.  Store state is the optional stored TAT; time and rates are exact
rationals. -/

/-- Outcome of one GCRA evaluation: the stored TAT afterwards, the TTL set
when the state was written, and the `(status, retry_after, remaining)`
reply tuple. -/
structure GcraResult where
  newState : Option ℚ
  ttl : Option ℤ
  status : Nat
  retryAfter : ℚ
  remaining : ℤ
  deriving DecidableEq, Repr

/-- Modelled from the spec: the GCRA script.  `emission_interval =
period / requests`, `delay_variance_limit = emission_interval * burst`,
`tat = max(store_get(key), now)` (missing state reads as `now`),
`new_tat = tat + emission_interval * cost`, `allow_at = new_tat -
delay_variance_limit`.  If `now ≥ allow_at` the script stores `new_tat`
with TTL `ceil(period)` and replies `(0, 0, floor((delay_variance_limit -
(new_tat - now)) / emission_interval))`; otherwise it replies
`(1, allow_at - now, 0)` without mutating the state. -/
def gcra (stored : Option ℚ) (now period : ℚ) (requests burst cost : Nat) :
    GcraResult :=
  let ei : ℚ := period / (requests : ℚ)
  let dvl : ℚ := ei * (burst : ℚ)
  let tat : ℚ := max (stored.getD now) now
  let newTat : ℚ := tat + ei * (cost : ℚ)
  let allowAt : ℚ := newTat - dvl
  if allowAt ≤ now then
    ⟨some newTat, some ⌈period⌉, 0, 0, ⌊(dvl - (newTat - now)) / ei⌋⟩
  else
    ⟨stored, none, 1, allowAt - now, 0⟩

/-! ## CLI (`flux/cli.py`)

The CLI is embedded over a pure model of the filesystem: a map from paths
to file contents.  `Path.absolute()` is the identity in the model and
`write_text` always succeeds. -/

/-- The `# ===…` banner line of the template: `#`, a space, 77 equals signs. -/
def eqBanner : String := "# " ++ String.mk (List.replicate 77 '=')

/-- The `# ---…` banner line of the template: `#`, a space, 77 dashes. -/
def dashBanner : String := "# " ++ String.mk (List.replicate 77 '-')

/-- The lines of `FLUX_TOML_TEMPLATE` from `flux/cli.py`. -/
def fluxTomlLines : List String :=
  [eqBanner,
   "# Flux Configuration",
   eqBanner,
   "# This file configures the Flux rate limiter.",
   "# Works with Django, FastAPI, Flask, or any Python application.",
   "",
   dashBanner,
   "# Redis Connection Settings",
   dashBanner,
   "[redis]",
   "host = \"127.0.0.1\"",
   "port = 6379",
   "pool_size = 5",
   "timeout_ms = 200",
   "",
   dashBanner,
   "# Flux Core Settings",
   dashBanner,
   "[flux]",
   "key_prefix = \"flux:\"",
   "log_file = \"flux_debug.log\"",
   "",
   dashBanner,
   "# Default Rate Limiting Settings",
   dashBanner,
   "# These are used when creating a RateLimiter() without explicit parameters.",
   "#",
   "# Supported policies:",
   "#   - \"gcra\"          : Generic Cell Rate Algorithm (smooth, recommended)",
   "#   - \"token_bucket\"  : Token Bucket (bursty traffic)",
   "#   - \"leaky_bucket\"  : Leaky Bucket (smooth output)",
   "#   - \"fixed_window\"  : Fixed Window / FCFS (simple, but can have burst at window edges)",
   "",
   "[rate_limit]",
   "policy = \"gcra\"",
   "requests = 100          # Requests per period",
   "period = 60             # Period in seconds",
   "burst = 10              # Burst capacity (optional, defaults to requests)",
   "",
   dashBanner,
   "# Named Rate Limit Configurations",
   dashBanner,
   "# Define presets for different application parts.",
   "# Usage: @rate_limit(name=\"api\", key=...)",
   "#",
   "# Example:",
   "#   [rate_limits.api]",
   "#   requests = 1000",
   "#   period = 60",
   "",
   "[rate_limits.default]",
   "requests = 100",
   "period = 60",
   "policy = \"gcra\"",
   "",
   "[rate_limits.strict]",
   "requests = 5",
   "period = 60",
   "policy = \"token_bucket\"",
   "",
   "[rate_limits.high_throughput]",
   "requests = 10000",
   "period = 60",
   "policy = \"gcra\""]

/-- `FLUX_TOML_TEMPLATE` from `flux/cli.py` (the triple-quoted literal ends
with a trailing newline). -/
def FLUX_TOML_TEMPLATE : String :=
  String.intercalate "\n" fluxTomlLines ++ "\n"

/-- A pure filesystem: path to file contents. -/
def Fs : Type := String → Option String

/-- Result of a CLI invocation: process exit code, printed lines, and the
filesystem afterwards. -/
structure CliResult where
  exitCode : Nat
  output : List String
  fs : Fs

/-- `init_config` from `flux/cli.py`: refuse to overwrite an existing file
unless `--force`, otherwise write the template.  (Python quotes the path
inside the error message and prints the absolute path on success; the
model prints the path as given.) -/
def initConfig (fs : Fs) (path : String) (force : Bool) : CliResult :=
  if (fs path).isSome && !force then
    ⟨1, ["Error: " ++ path ++ " already exists. Use --force to overwrite."], fs⟩
  else
    ⟨0, ["Generated configuration file at: " ++ path],
     fun p => if p = path then some FLUX_TOML_TEMPLATE else fs p⟩

/-- An argv token that argparse treats as an option: it begins with `-`. -/
def isFlagToken (a : String) : Bool :=
  match a.data with
  | '-' :: _ => true
  | _ => false

/-- `main` from `flux/cli.py`, for argv of the shape `[subcommand, args…]`.
The only subparser registered is `init`; argparse rejects any other
subcommand token as an invalid choice and exits with status 2, and with no
subcommand `main` prints the help text and falls through to exit 0.  For
`init`, the first non-flag token is the target path (default `flux.toml`)
and `--force`/`-f` sets the overwrite flag. -/
def cliMain (fs : Fs) (argv : List String) : CliResult :=
  match argv with
  | [] => ⟨0, ["usage: flux"], fs⟩
  | cmd :: rest =>
      if cmd = "init" then
        let path := ((rest.filter (fun a => !isFlagToken a)).head?).getD "flux.toml"
        let force := rest.contains "--force" || rest.contains "-f"
        initConfig fs path force
      else
        ⟨2, ["usage: flux", "invalid choice: " ++ cmd], fs⟩

/-- Substring scan over character lists. -/
def listContainsSub (needle : List Char) : List Char → Bool
  | [] => needle.isEmpty
  | c :: rest => needle.isPrefixOf (c :: rest) || listContainsSub needle rest

/-- Substring test on strings (Python `in`), by direct scan. -/
def strContains (hay needle : String) : Bool :=
  listContainsSub needle.data hay.data

/-! ## Decorator (`flux/decorators.py`)

The wrappers are embedded over: the limiter as a function from the final
key to its decision; the key generator `generate_key` as a function of the
positional arguments (its value is what lines 141/160 receive); and the
positional arguments as the one attribute the denial path probes,
`hasattr(args[0], 'META')`. -/

/-- A positional argument as seen by the denial path of
`check_limit_and_get_response`: only whether it has a `META` attribute
(i.e. looks like a Django request). -/
structure PyArg where
  hasMETA : Bool
  deriving DecidableEq, Repr

/-- Python `int()` on a rational: truncation toward zero. -/
def pyInt (q : ℚ) : ℤ := if 0 ≤ q then ⌊q⌋ else ⌈q⌉

/-- What `check_limit_and_get_response` does: return `None` (allowed),
return a Django 429 `JsonResponse`, raise `RateLimitExceeded`, or raise
`IndexError` (from evaluating `args[0]` on an empty argument tuple). -/
inductive CheckOutcome where
  | ok
  | djangoResponse (status : Nat) (retryAfter : ℤ)
  | raisesRateLimitExceeded (key : String) (retryAfter : ℚ)
  | raisesIndexError
  deriving DecidableEq, Repr

/-- `check_limit_and_get_response` from `flux/decorators.py` (lines
112–132): hit the limiter with the final key; when denied, evaluate
`args[0]` — an `IndexError` on an empty tuple — and either return a 429
`JsonResponse` for a Django request or raise `RateLimitExceeded` with the
final key and the decision's `retry_after`. -/
def checkLimitAndGetResponse (hit : String → RateLimitResult)
    (finalKey : String) (args : List PyArg) : CheckOutcome :=
  let result := hit finalKey
  if result.allowed then .ok
  else
    match args with
    | [] => .raisesIndexError
    | a :: _ =>
        if a.hasMETA then .djangoResponse 429 (pyInt result.retryAfter)
        else .raisesRateLimitExceeded finalKey result.retryAfter

/-- Observable outcome of calling a wrapped function: proceed to the
wrapped function, return the Django denial response, or propagate an
exception. -/
inductive WrapperOutcome where
  | proceeds
  | returnsDeniedDjango (status : Nat) (retryAfter : ℤ)
  | raisesRLE (key : String) (retryAfter : ℚ)
  | raisesIndexError
  deriving DecidableEq, Repr

/-- The sync `wrapper` from `flux/decorators.py` (lines 156–168):
`final_key = f"{func.__name__}:{limit_key}"`, then
`check_limit_and_get_response`; a truthy denial response is returned,
otherwise the wrapped function runs. -/
def syncWrapper (hit : String → RateLimitResult)
    (generateKey : List PyArg → String) (funcName : String)
    (args : List PyArg) : WrapperOutcome :=
  let limitKey := generateKey args
  let finalKey := funcName ++ ":" ++ limitKey
  match checkLimitAndGetResponse hit finalKey args with
  | .ok => .proceeds
  | .djangoResponse s r => .returnsDeniedDjango s r
  | .raisesRateLimitExceeded k r => .raisesRLE k r
  | .raisesIndexError => .raisesIndexError

/-- The async `wrapper` from `flux/decorators.py` (lines 137–151); its body
is the same computation as the sync wrapper's, with the wrapped call
awaited. -/
def asyncWrapper (hit : String → RateLimitResult)
    (generateKey : List PyArg → String) (funcName : String)
    (args : List PyArg) : WrapperOutcome :=
  let limitKey := generateKey args
  let finalKey := funcName ++ ":" ++ limitKey
  match checkLimitAndGetResponse hit finalKey args with
  | .ok => .proceeds
  | .djangoResponse s r => .returnsDeniedDjango s r
  | .raisesRateLimitExceeded k r => .raisesRLE k r
  | .raisesIndexError => .raisesIndexError

/-! ## Theorems -/

set_option maxRecDepth 4096 in
/-- FIPS-180-4 known-answer check for the SHA-256 embedding. -/
theorem sha256Hex_abc_kat : sha256Hex "abc"
    = "ba7816bf8f01cfea414140de5dae2223b00361a396177a9cb410ff61f20015ad" := by
  decide

/-- C1: for every store or connection error raised while executing a hit,
`fail_silently = true` yields an allowed decision with `remaining` equal to
the configured `requests` and `retry_after = 0`, and `fail_silently =
false` raises a `ConnectionError` wrapping the cause; the raw store error
never escapes unwrapped. -/
theorem hit_store_error_fail_silently (cfg : FluxConfig) (requests : Nat)
    (j : ℚ) (e : StoreError) :
    (cfg.failSilently = true →
      hit cfg requests j (.error e) = .ok ⟨true, (requests : ℤ), 0⟩)
    ∧ (cfg.failSilently = false →
      hit cfg requests j (.error e) = .error (.connectionError e)) := by
  constructor <;> intro h <;> simp [hit, h]

/-- Witness for C1 at a concrete configuration and error. -/
theorem hit_store_error_fail_silently_app :
    hit ⟨true, false, 0⟩ 7 0 (.error (.connectionFailed "down"))
      = .ok ⟨true, 7, 0⟩
    ∧ hit ⟨false, false, 0⟩ 7 0 (.error (.connectionFailed "down"))
      = .error (.connectionError (.connectionFailed "down")) :=
  ⟨(hit_store_error_fail_silently ⟨true, false, 0⟩ 7 0
      (.connectionFailed "down")).1 rfl,
   (hit_store_error_fail_silently ⟨false, false, 0⟩ 7 0
      (.connectionFailed "down")).2 rfl⟩

/-- C2: evaluating the embedded decorator at the failing input — a denied
decision on a call with no positional arguments — shows the wrapper
propagates an `IndexError` from `args[0]` instead of raising
`RateLimitExceeded`. -/
theorem sync_wrapper_denied_no_args_index_error :
    syncWrapper (fun _ => ⟨false, 0, 5⟩) (fun _ => "k") "f" []
      = .raisesIndexError
    ∧ asyncWrapper (fun _ => ⟨false, 0, 5⟩) (fun _ => "k") "f" []
      = .raisesIndexError := ⟨rfl, rfl⟩

/-- C3 counterexample: the CLI has no `clear` subcommand; invoking `clear`
is rejected by the argument parser with exit status 2 (neither 0 nor 1)
and no key is touched. -/
theorem cli_clear_rejected :
    (cliMain (fun _ => none) ["clear"]).exitCode = 2
    ∧ (cliMain (fun _ => none) ["clear"]).exitCode ≠ 0
    ∧ (cliMain (fun _ => none) ["clear"]).exitCode ≠ 1 := by
  refine ⟨rfl, ?_, ?_⟩ <;> decide

/-- C3 amended: the CLI accepts only the `init` subcommand; every `clear`
invocation is rejected as an invalid choice, exiting with status 2 and
leaving the filesystem (hence every stored key) untouched. -/
theorem cli_clear_amended (fs : Fs) :
    cliMain fs ["clear"]
      = ⟨2, ["usage: flux", "invalid choice: " ++ "clear"], fs⟩ := by
  simp [cliMain]

/-- C10: for the same limiter state, key-generation outcome, function name
and argument list, the async wrapper and the sync wrapper produced by
`rate_limit` compute the same final key, consult the limiter the same way
and reach the same allow/deny outcome. -/
theorem async_sync_wrapper_agree (hit : String → RateLimitResult)
    (generateKey : List PyArg → String) (funcName : String)
    (args : List PyArg) :
    asyncWrapper hit generateKey funcName args
      = syncWrapper hit generateKey funcName args := rfl

/-- C9: each wrapper consults the limiter exactly at the fingerprint
`func.__name__ ++ ":" ++ generated key` — two limiters that agree on that
one fingerprint induce the same wrapper behaviour — and two decorated
functions with distinct names produce distinct fingerprints even for the
same generated key, so they never share a bucket. -/
theorem wrapper_fingerprint_isolation
    (hit1 hit2 : String → RateLimitResult) (g : List PyArg → String)
    (n n' : String) (args : List PyArg)
    (hagree : hit1 (n ++ ":" ++ g args) = hit2 (n ++ ":" ++ g args))
    (hne : n ≠ n') :
    syncWrapper hit1 g n args = syncWrapper hit2 g n args
    ∧ asyncWrapper hit1 g n args = asyncWrapper hit2 g n args
    ∧ n ++ ":" ++ g args ≠ n' ++ ":" ++ g args := by
  refine ⟨?_, ?_, ?_⟩
  · simp only [syncWrapper, checkLimitAndGetResponse, hagree]
  · simp only [asyncWrapper, checkLimitAndGetResponse, hagree]
  · intro heq
    apply hne
    apply String.ext
    have hd := congrArg String.data heq
    simp only [String.data_append] at hd
    exact List.append_left_injective _ (List.append_left_injective _ hd)

/-- Witness for C9 at two concrete function names and a shared key. -/
theorem wrapper_fingerprint_isolation_app :
    ("f" : String) ≠ "g2"
    ∧ (syncWrapper (fun _ => ⟨true, 0, 0⟩) (fun _ => "k") "f" []
        = syncWrapper (fun _ => ⟨true, 0, 0⟩) (fun _ => "k") "f" []
      ∧ asyncWrapper (fun _ => ⟨true, 0, 0⟩) (fun _ => "k") "f" []
        = asyncWrapper (fun _ => ⟨true, 0, 0⟩) (fun _ => "k") "f" []
      ∧ ("f" : String) ++ ":" ++ "k" ≠ "g2" ++ ":" ++ "k") :=
  ⟨by decide,
   wrapper_fingerprint_isolation (fun _ => ⟨true, 0, 0⟩) (fun _ => ⟨true, 0, 0⟩)
     (fun _ => "k") "f" "g2" [] rfl (by decide)⟩

/-- C4: `init` writes the default TOML and exits 0 when the target does not
exist or `--force` is given; when the target exists without `--force` it
prints an error, leaves the filesystem unchanged and exits 1. -/
theorem cli_init_cases (fs : Fs) (path : String)
    (hp : isFlagToken path = false) :
    (fs path = none →
      cliMain fs ["init", path]
        = ⟨0, ["Generated configuration file at: " ++ path],
           fun p => if p = path then some FLUX_TOML_TEMPLATE else fs p⟩)
    ∧ (∀ c, fs path = some c →
      cliMain fs ["init", path]
        = ⟨1, ["Error: " ++ path ++ " already exists. Use --force to overwrite."],
           fs⟩)
    ∧ cliMain fs ["init", path, "--force"]
        = ⟨0, ["Generated configuration file at: " ++ path],
           fun p => if p = path then some FLUX_TOML_TEMPLATE else fs p⟩ := by
  have hne1 : path ≠ "--force" := fun h => absurd (h ▸ hp) (by decide)
  have hne2 : path ≠ "-f" := fun h => absurd (h ▸ hp) (by decide)
  have hb1 : ("--force" == path) = false := by
    simpa using fun h => hne1 h.symm
  have hb2 : ("-f" == path) = false := by
    simpa using fun h => hne2 h.symm
  refine ⟨fun h => ?_, fun c h => ?_, ?_⟩
  · simp [cliMain, initConfig, hp, hb1, hb2, List.contains, List.elem, h]
  · simp [cliMain, initConfig, hp, hb1, hb2, List.contains, List.elem, h]
  · simp [cliMain, initConfig, hp, hb1, hb2, List.contains, List.elem]

/-- Witness for C4 at a fresh path, an existing path, and `--force`. -/
theorem cli_init_cases_app :
    isFlagToken "flux.toml" = false
    ∧ cliMain (fun _ => none) ["init", "flux.toml"]
        = ⟨0, ["Generated configuration file at: " ++ "flux.toml"],
           fun p => if p = "flux.toml" then some FLUX_TOML_TEMPLATE else none⟩
    ∧ cliMain (fun p => if p = "flux.toml" then some "old" else none)
        ["init", "flux.toml"]
        = ⟨1, ["Error: " ++ "flux.toml"
                ++ " already exists. Use --force to overwrite."],
           fun p => if p = "flux.toml" then some "old" else none⟩
    ∧ cliMain (fun p => if p = "flux.toml" then some "old" else none)
        ["init", "flux.toml", "--force"]
        = ⟨0, ["Generated configuration file at: " ++ "flux.toml"],
           fun p => if p = "flux.toml" then some FLUX_TOML_TEMPLATE
                    else if p = "flux.toml" then some "old" else none⟩ :=
  ⟨by decide,
   (cli_init_cases (fun _ => none) "flux.toml" (by decide)).1 rfl,
   (cli_init_cases (fun p => if p = "flux.toml" then some "old" else none)
      "flux.toml" (by decide)).2.1 "old" (by simp),
   (cli_init_cases (fun p => if p = "flux.toml" then some "old" else none)
      "flux.toml" (by decide)).2.2⟩

set_option maxRecDepth 100000 in
/-- C5: the `FLUX_TOML_TEMPLATE` written by `init` defines `key_prefix` and
`log_file` but none of `jitter_enabled`, `jitter_max_ms`,
`analytics_enabled`, `analytics_stream`, `fail_silently` — contradicting
the `[flux]` settings list of the spec and the repo's own test, which
asserts `jitter_enabled = false` appears in the generated file. -/
theorem flux_toml_template_settings :
    strContains FLUX_TOML_TEMPLATE "key_prefix" = true
    ∧ strContains FLUX_TOML_TEMPLATE "log_file" = true
    ∧ strContains FLUX_TOML_TEMPLATE "jitter_enabled" = false
    ∧ strContains FLUX_TOML_TEMPLATE "jitter_max_ms" = false
    ∧ strContains FLUX_TOML_TEMPLATE "analytics_enabled" = false
    ∧ strContains FLUX_TOML_TEMPLATE "analytics_stream" = false
    ∧ strContains FLUX_TOML_TEMPLATE "fail_silently" = false := by
  refine ⟨?_, ?_, ?_, ?_, ?_, ?_, ?_⟩ <;> decide

/-- Every nibble maps into the lowercase hexadecimal alphabet. -/
theorem hexChar_mem_alphabet (n : Nat) : hexChar n ∈ hexAlphabet := by
  unfold hexChar
  have h : n % 16 < 16 := Nat.mod_lt _ (by norm_num)
  set m := n % 16 with hm
  interval_cases m <;> decide

/-- Every character of a SHA-256 hex digest is a lowercase hex character. -/
theorem sha256Hex_lower_hex (s : String) :
    ∀ c ∈ (sha256Hex s).data, c ∈ hexAlphabet := by
  intro c hc
  simp only [sha256Hex, List.mem_flatten, List.mem_map] at hc
  obtain ⟨l, ⟨b, _, rfl⟩, hcl⟩ := hc
  simp only [byteToHex, List.mem_cons, List.not_mem_nil, or_false] at hcl
  rcases hcl with rfl | rfl <;> exact hexChar_mem_alphabet _

/-- C6: the store key is the configured prefix concatenated with the
lowercase SHA-256 hex digest of the fingerprint, and fingerprints with
distinct digests map to distinct store keys. -/
theorem hashed_key_spec (pre fp1 fp2 : String)
    (h : sha256Hex fp1 ≠ sha256Hex fp2) :
    hashedKey pre fp1 = pre ++ sha256Hex fp1
    ∧ (∀ c ∈ (sha256Hex fp1).data, c ∈ hexAlphabet)
    ∧ hashedKey pre fp1 ≠ hashedKey pre fp2 := by
  refine ⟨rfl, sha256Hex_lower_hex fp1, fun heq => h ?_⟩
  apply String.ext
  have hd := congrArg String.data heq
  simp only [hashedKey, String.data_append] at hd
  exact List.append_right_injective _ hd

set_option maxRecDepth 8192 in
/-- Witness for C6 at two concrete fingerprints. -/
theorem hashed_key_spec_app :
    sha256Hex "a" ≠ sha256Hex "b"
    ∧ (hashedKey "flux:" "a" = "flux:" ++ sha256Hex "a"
      ∧ (∀ c ∈ (sha256Hex "a").data, c ∈ hexAlphabet)
      ∧ hashedKey "flux:" "a" ≠ hashedKey "flux:" "b") :=
  ⟨by decide, hashed_key_spec "flux:" "a" "b" (by decide)⟩

/-- C7: with the uniform sample `j ∈ [0, jitter_max_ms / 1000]` made
explicit, a positive raw `retry_after = r` under enabled jitter becomes
`r + j ∈ [r, r + jitter_max_ms / 1000]`; with jitter disabled, or
`jitter_max_ms = 0`, or `r = 0`, the parsed `retry_after` is `r`
unchanged; and jitter is off in the default configuration. -/
theorem jitter_retry_after (cfg : FluxConfig) (j r : ℚ) (rem : ℤ) (st : Nat)
    (hj0 : 0 ≤ j) (hj1 : j ≤ (cfg.jitterMaxMs : ℚ) / 1000) :
    (cfg.jitterEnabled = true → 0 < r →
      (parseResult cfg j st r rem).retryAfter = r + j
      ∧ r ≤ (parseResult cfg j st r rem).retryAfter
      ∧ (parseResult cfg j st r rem).retryAfter
          ≤ r + (cfg.jitterMaxMs : ℚ) / 1000)
    ∧ (cfg.jitterEnabled = false → (parseResult cfg j st r rem).retryAfter = r)
    ∧ (cfg.jitterMaxMs = 0 → (parseResult cfg j st r rem).retryAfter = r)
    ∧ (r = 0 → (parseResult cfg j st r rem).retryAfter = r)
    ∧ ({} : FluxConfig).jitterEnabled = false := by
  refine ⟨fun he hr => ?_, fun he => ?_, fun hM => ?_, fun hr => ?_, rfl⟩
  · simp only [parseResult]
    rw [if_pos ⟨he, hr⟩]
    refine ⟨rfl, by linarith, by linarith⟩
  · simp [parseResult, he]
  · rw [hM] at hj1
    have hj : j = 0 := le_antisymm (by simpa using hj1) hj0
    subst hj
    simp only [parseResult]
    split <;> simp
  · subst hr
    simp [parseResult]

/-- Witness for C7 at an enabled 1000 ms jitter, sample 1/2, raw 10 s. -/
theorem jitter_retry_after_app :
    (parseResult ⟨false, true, 1000⟩ (1/2) 1 10 0).retryAfter = 10 + 1/2 :=
  ((jitter_retry_after ⟨false, true, 1000⟩ (1/2) 10 0 1 (by norm_num)
      (by norm_num)).1 rfl (by norm_num)).1

/-- C8: the GCRA evaluation, with `emission_interval = period / requests`,
`delay_variance_limit = emission_interval * burst`, `tat =
max(stored, now)`, `new_tat = tat + emission_interval` (cost 1) and
`allow_at = new_tat - delay_variance_limit`: when `now ≥ allow_at` it
stores `new_tat` with TTL `ceil(period)` and replies `(0, 0,
floor((delay_variance_limit - (new_tat - now)) / emission_interval))`;
otherwise it replies `(1, allow_at - now, 0)` leaving the state
unchanged. -/
theorem gcra_matches_spec (stored : Option ℚ) (now period : ℚ)
    (requests burst : Nat) (ei dvl tat newTat allowAt : ℚ)
    (hei : ei = period / (requests : ℚ))
    (hdvl : dvl = ei * (burst : ℚ))
    (htat : tat = max (stored.getD now) now)
    (hnew : newTat = tat + ei)
    (hallow : allowAt = newTat - dvl) :
    (allowAt ≤ now →
      gcra stored now period requests burst 1
        = ⟨some newTat, some ⌈period⌉, 0, 0, ⌊(dvl - (newTat - now)) / ei⌋⟩)
    ∧ (now < allowAt →
      gcra stored now period requests burst 1
        = ⟨stored, none, 1, allowAt - now, 0⟩) := by
  subst hei hdvl htat hnew hallow
  constructor <;> intro h
  · rw [gcra]
    simp only [Nat.cast_one, mul_one]
    rw [if_pos h]
  · rw [gcra]
    simp only [Nat.cast_one, mul_one]
    rw [if_neg (not_le.mpr h)]

/-- Witness for C8: an idle bucket with `requests = 5`, `period = 60`,
`burst = 5` admits the first hit at `now = 0` and stores TAT 12 with TTL
60, reporting 4 remaining. -/
theorem gcra_matches_spec_app :
    ((-48 : ℚ) ≤ 0) ∧ gcra none 0 60 5 5 1 = ⟨some 12, some 60, 0, 0, 4⟩ := by
  refine ⟨by norm_num, ?_⟩
  have h := (gcra_matches_spec none 0 60 5 5 12 60 0 12 (-48)
    (by norm_num) (by norm_num) (by simp) (by norm_num) (by norm_num)).1
    (by norm_num)
  rw [h]
  norm_num

end Flux
